import Mathlib

/-!
Verification of the ppd-rs command-line client for the Power Profiles Daemon.

The development shallowly embeds the client-side logic of the repository:
the data model in src/lib.rs (PowerProfile, Profile, Action), the error
type in src/error.rs (PpdError), and the command dispatch and rendering
logic in src/main.rs (list, set, watch, configure_battery_aware and the
top-level match over commands).

Remote interaction is modelled explicitly: every value the adapter would
return (active profile, profile list, degraded property, battery-aware
flag, actions, delivered change notifications) is an input, and every
remote write the client issues is collected in an output list of
WriteCall values.  Printed output is modelled as the list of lines that
the command writes to standard output.
-/

/-- The closed profile enumeration from src/lib.rs. -/
inductive PowerProfile where
  | PowerSaver
  | Balanced
  | Performance
deriving DecidableEq

/-- The Display implementation for PowerProfile in src/lib.rs: the fixed
lowercase-hyphenated name of each variant. -/
def PowerProfile.display : PowerProfile → String
  | .Balanced => "balanced"
  | .PowerSaver => "power-saver"
  | .Performance => "performance"

/-- The TryFrom String implementation for PowerProfile in src/lib.rs:
match on the string, returning the variant for the three recognized
names and an error for everything else.  The Rust error type is the unit
type, so Option models the result. -/
def PowerProfile.try_from (value : String) : Option PowerProfile :=
  if value = "balanced" then some .Balanced
  else if value = "power-saver" then some .PowerSaver
  else if value = "performance" then some .Performance
  else none

/-- The Profile structure from src/lib.rs: one selectable profile with
its backing drivers. -/
structure Profile where
  profile : PowerProfile
  driver : String
  platform_driver : Option String
  cpu_driver : Option String

/-- The Action structure from src/lib.rs (namespaced to avoid clashing
with the Mathlib name). -/
structure Ppd.Action where
  name : String
  description : String
  enabled : Bool

/-- The error enumeration from src/error.rs.  The DBusError cause is
kept abstract as a string.  InvalidProfile carries the profile name
string, matching its only construction site in src/main.rs, where the
user-supplied name (which may be unparseable) is passed to it. -/
inductive PpdError where
  | DBusError (cause : String)
  | InvalidProfile (profile : String)
  | InvalidConfig (config : String)
  | Unimplemented (feature : String)

/-- A remote write issued through the proxy: either a write of the
ActiveProfile property (set_active_profile, carrying the profile name
as it crosses the wire) or a write of the BatteryAware property
(set_battery_aware). -/
inductive WriteCall where
  | setActiveProfile (profile : String)
  | setBatteryAware (value : Bool)

/- Parse and format round-trip lemmas for PowerProfile. -/

theorem try_from_display (p : PowerProfile) :
    PowerProfile.try_from p.display = some p := by
  cases p <;> decide

theorem display_of_try_from (s : String) (p : PowerProfile)
    (h : PowerProfile.try_from s = some p) : p.display = s := by
  unfold PowerProfile.try_from at h
  split at h
  · rename_i hs; cases h; rw [hs]; rfl
  · split at h
    · rename_i hs; cases h; rw [hs]; rfl
    · split at h
      · rename_i hs; cases h; rw [hs]; rfl
      · cases h

theorem display_injective (a b : PowerProfile) (h : a.display = b.display) :
    a = b := by
  cases a <;> cases b <;> first | rfl | (exact absurd h (by decide))

/-- C5: for every string in the valid name set, parsing succeeds and
formatting the parsed profile returns the original string. -/
theorem parse_then_format_round_trip :
    (PowerProfile.try_from "power-saver").map PowerProfile.display
        = some "power-saver"
    ∧ (PowerProfile.try_from "balanced").map PowerProfile.display
        = some "balanced"
    ∧ (PowerProfile.try_from "performance").map PowerProfile.display
        = some "performance" := by
  decide

/-- C6: every string outside the valid name set fails to parse.  The
reverse direction, profile to string, is total by the type of
PowerProfile.display, while PowerProfile.try_from returns an Option and
is partial. -/
theorem parse_fails_outside_valid_set (s : String)
    (h1 : s ≠ "power-saver") (h2 : s ≠ "balanced") (h3 : s ≠ "performance") :
    PowerProfile.try_from s = none := by
  unfold PowerProfile.try_from
  rw [if_neg h2, if_neg h1, if_neg h3]

/-- Witness for C6 at the concrete string "turbo". -/
theorem parse_fails_outside_valid_set_witness :
    PowerProfile.try_from "turbo" = none :=
  parse_fails_outside_valid_set "turbo" (by decide) (by decide) (by decide)

/-- C10: formatting any PowerProfile variant to its canonical string and
parsing that string back yields the same variant. -/
theorem format_then_parse_round_trip (p : PowerProfile) :
    PowerProfile.try_from p.display = some p := by
  cases p <;> decide

/- The List command (fn list in src/main.rs).  The values the adapter
returns are inputs: the active profile, the profile list in adapter
order, and the optional PerformanceDegraded property.  The result is
the list of lines printed to standard output. -/

/-- The body of the while-let loop in fn list for one profile: a
degraded string is attached only when the profile name is
"performance"; the marker is an asterisk when the profile equals the
active one and a space otherwise; driver lines appear when present, in
source order CpuDriver then PlatformDriver, then the degraded line. -/
def list_entry (current : PowerProfile) (degraded : String)
    (profile : Profile) : List String :=
  let degraded_string :=
    if profile.profile.display = "performance" then some degraded else none
  let current_marker := if current = profile.profile then "*" else " "
  [current_marker ++ " " ++ profile.profile.display ++ ":"]
  ++ (match profile.cpu_driver with
      | some s => ["    CpuDriver:\t" ++ s]
      | none => [])
  ++ (match profile.platform_driver with
      | some s => ["    PlatformDriver:\t" ++ s]
      | none => [])
  ++ (match degraded_string with
      | some s => ["    Degraded:  " ++ s]
      | none => [])

/-- The while-let loop of fn list over the peekable reversed iterator:
after each entry a blank separator line is printed exactly when peek
shows that a further element remains. -/
def list_go (current : PowerProfile) (degraded : String) :
    List Profile → List String
  | [] => []
  | profile :: rest =>
      list_entry current degraded profile
        ++ (if rest.isEmpty then [] else [""])
        ++ list_go current degraded rest

/-- fn list in src/main.rs: the degraded reason defaults to "no" when
the PerformanceDegraded property is absent, and the profile list is
iterated in reverse of adapter order. -/
def list (current : PowerProfile) (profiles : List Profile)
    (performance_degraded : Option String) : List String :=
  let degraded := performance_degraded.getD "no"
  list_go current degraded profiles.reverse

/-- Rendering of one profile entry as the spec describes it (section
4.2, List): a leading asterisk exactly when the entry equals the active
profile and a single space otherwise, then the profile name, driver
fields when present, and a degraded-reason line exactly when the entry
is the Performance profile. -/
def entry_spec (current : PowerProfile) (degraded_reason : String)
    (p : Profile) : List String :=
  [(if current = p.profile then "*" else " ")
      ++ " " ++ p.profile.display ++ ":"]
  ++ (match p.cpu_driver with
      | some s => ["    CpuDriver:\t" ++ s]
      | none => [])
  ++ (match p.platform_driver with
      | some s => ["    PlatformDriver:\t" ++ s]
      | none => [])
  ++ (if p.profile = PowerProfile.Performance
      then ["    Degraded:  " ++ degraded_reason]
      else [])

theorem display_eq_performance_iff (p : PowerProfile) :
    p.display = "performance" ↔ p = PowerProfile.Performance := by
  cases p <;> decide

theorem list_entry_eq_entry_spec (current : PowerProfile)
    (degraded : String) (p : Profile) :
    list_entry current degraded p = entry_spec current degraded p := by
  unfold list_entry entry_spec
  simp only [display_eq_performance_iff]
  by_cases h : p.profile = PowerProfile.Performance <;> simp [h]

theorem list_go_eq_intercalate (current : PowerProfile) (degraded : String)
    (l : List Profile) :
    list_go current degraded l
      = List.intercalate [""] (l.map (list_entry current degraded)) := by
  induction l with
  | nil => simp [list_go, List.intercalate, List.intersperse]
  | cons p rest ih =>
    cases rest with
    | nil => simp [list_go, List.intercalate, List.intersperse]
    | cons q rest2 =>
      have hcc : List.intercalate [""]
            ((p :: q :: rest2).map (list_entry current degraded))
          = list_entry current degraded p ++ [""]
            ++ List.intercalate [""]
                ((q :: rest2).map (list_entry current degraded)) := by
        simp [List.intercalate, List.intersperse]
      rw [hcc, ← ih]
      simp [list_go]

/-- C2: the List command prints the profile entries in reverse of
adapter order, each entry carrying exactly one leading marker that is
an asterisk exactly when its profile equals the active profile and a
single space otherwise, with entries separated by one blank line and no
trailing blank line (List.intercalate places the separator strictly
between blocks). -/
theorem list_reverse_marked_separated (current : PowerProfile)
    (profiles : List Profile) (performance_degraded : Option String) :
    list current profiles performance_degraded
      = List.intercalate [""]
          (profiles.reverse.map
            (entry_spec current (performance_degraded.getD "no"))) := by
  unfold list
  rw [list_go_eq_intercalate]
  have hf : list_entry current (performance_degraded.getD "no")
      = entry_spec current (performance_degraded.getD "no") :=
    funext (fun p => list_entry_eq_entry_spec _ _ p)
  rw [hf]

/-- C3: within the List command rendering, an entry carries a
degraded-reason line exactly when it is the Performance profile
(entry_spec attaches that line under the condition
p.profile = Performance and list_entry is proved equal to it), the line
shows the adapter degraded string defaulted with getD "no", and the
default applies exactly when the property is absent. -/
theorem list_degraded_line_iff_performance (current : PowerProfile)
    (performance_degraded : Option String) (p : Profile) :
    list_entry current (performance_degraded.getD "no") p
        = entry_spec current (performance_degraded.getD "no") p
    ∧ list current [p] performance_degraded
        = entry_spec current (performance_degraded.getD "no") p
    ∧ (none : Option String).getD "no" = "no" := by
  refine ⟨list_entry_eq_entry_spec _ _ p, ?_, rfl⟩
  unfold list
  simp [list_go, list_entry_eq_entry_spec]

/- The Set command (fn set in src/main.rs).  The profile list the
adapter returns is an input; the result is the terminal Result paired
with the list of remote writes issued.  The HashSet of profile names
built from the list is modelled by membership in the list of canonical
name strings of the listed profiles (collecting into a set only
removes duplicates, which membership ignores). -/

/-- fn set in src/main.rs: collect the names of the currently listed
profiles; when the requested name is among them, issue exactly one
set_active_profile write with it and succeed, otherwise fail with
InvalidProfile carrying the requested name, issuing no write. -/
def Ppd.set (profiles : List Profile) (profile : String) :
    Except PpdError Unit × List WriteCall :=
  let profiles_names := profiles.map (fun x => x.profile.display)
  if profile ∈ profiles_names then
    (Except.ok (), [WriteCall.setActiveProfile profile])
  else
    (Except.error (PpdError.InvalidProfile profile), [])

theorem mem_names_iff (profiles : List Profile) (p : PowerProfile) :
    p.display ∈ profiles.map (fun x => x.profile.display)
      ↔ p ∈ profiles.map Profile.profile := by
  simp only [List.mem_map]
  constructor
  · rintro ⟨x, hx, hdisp⟩
    exact ⟨x, hx, display_injective _ _ hdisp⟩
  · rintro ⟨x, hx, hprof⟩
    exact ⟨x, hx, by rw [hprof]⟩

/-- C1: the outcome of the Set command follows the three-step scheme:
a string that does not parse to any PowerProfile fails with
InvalidProfile and issues no write; a string that parses to a profile
absent from the listed profiles fails with InvalidProfile and issues no
write; only when the parsed profile is among the listed profiles is the
write issued. -/
theorem set_parse_then_check_then_write (profiles : List Profile)
    (s : String) :
    (PowerProfile.try_from s = none →
        Ppd.set profiles s = (Except.error (PpdError.InvalidProfile s), []))
    ∧ (∀ p, PowerProfile.try_from s = some p →
        p ∉ profiles.map Profile.profile →
        Ppd.set profiles s = (Except.error (PpdError.InvalidProfile s), []))
    ∧ (∀ p, PowerProfile.try_from s = some p →
        p ∈ profiles.map Profile.profile →
        Ppd.set profiles s = (Except.ok (), [WriteCall.setActiveProfile s])) := by
  refine ⟨?_, ?_, ?_⟩
  · intro hnone
    have hnotmem : s ∉ profiles.map (fun x => x.profile.display) := by
      intro hmem
      rcases List.mem_map.mp hmem with ⟨x, _, hdisp⟩
      have ht := try_from_display x.profile
      rw [hdisp, hnone] at ht
      cases ht
    simp only [Ppd.set]
    rw [if_neg hnotmem]
  · intro p hp hnot
    have hs : p.display = s := display_of_try_from s p hp
    have hnotmem : s ∉ profiles.map (fun x => x.profile.display) := by
      intro hmem
      rw [← hs] at hmem
      exact hnot ((mem_names_iff profiles p).mp hmem)
    simp only [Ppd.set]
    rw [if_neg hnotmem]
  · intro p hp hmem
    have hs : p.display = s := display_of_try_from s p hp
    have hmem2 : s ∈ profiles.map (fun x => x.profile.display) := by
      rw [← hs]
      exact (mem_names_iff profiles p).mpr hmem
    simp only [Ppd.set]
    rw [if_pos hmem2]

/-- Witness for C1: Set with the unrecognized name "turbo" fails with
InvalidProfile and issues no write. -/
theorem set_parse_then_check_then_write_witness :
    Ppd.set [] "turbo" = (Except.error (PpdError.InvalidProfile "turbo"), []) :=
  (set_parse_then_check_then_write [] "turbo").1 (by decide)

/-- C7: the Set command with a name present among the listed profile
names issues exactly one set_active_profile write carrying that name
and returns success. -/
theorem set_present_writes_once (profiles : List Profile) (s : String)
    (h : s ∈ profiles.map (fun x => x.profile.display)) :
    Ppd.set profiles s = (Except.ok (), [WriteCall.setActiveProfile s]) := by
  simp only [Ppd.set]
  rw [if_pos h]

/-- Witness for C7 at a one-element profile list. -/
theorem set_present_writes_once_witness :
    Ppd.set [{ profile := PowerProfile.Balanced, driver := "d",
               platform_driver := none, cpu_driver := none }] "balanced"
      = (Except.ok (), [WriteCall.setActiveProfile "balanced"]) :=
  set_present_writes_once _ "balanced" (by decide)

/- The ConfigureBatteryAware command (fn configure_battery_aware in
src/main.rs). -/

/-- fn configure_battery_aware in src/main.rs: both flags set is an
InvalidConfig error, neither flag set is an InvalidConfig error, and
otherwise a single set_battery_aware write of the enable flag is
issued. -/
def configure_battery_aware (enable disable : Bool) :
    Except PpdError Unit × List WriteCall :=
  if enable && disable then
    (Except.error
      (PpdError.InvalidConfig "can\x27t set both enable and disable"), [])
  else if !(enable || disable) then
    (Except.error
      (PpdError.InvalidConfig "enable or disable is required"), [])
  else
    (Except.ok (), [WriteCall.setBatteryAware enable])

/-- C4: ConfigureBatteryAware fails with InvalidConfig when the two
flags agree (both true or both false) and issues no write; when exactly
one flag is true it issues exactly one write carrying the enable
flag. -/
theorem configure_battery_aware_exclusive (enable disable : Bool) :
    configure_battery_aware enable disable
      = if enable = disable then
          (Except.error (PpdError.InvalidConfig
            (if enable then "can\x27t set both enable and disable"
             else "enable or disable is required")), [])
        else
          (Except.ok (), [WriteCall.setBatteryAware enable]) := by
  cases enable <;> cases disable <;> rfl

/- The Watch command (fn watch in src/main.rs).  The change
notification signal is modelled by the finite list of profile values
delivered so far; the output is what has been printed after consuming
exactly those notifications. -/

/-- The for loop of fn watch: one printed line per delivered
notification, in delivery order. -/
def watch_go : List PowerProfile → List String
  | [] => []
  | p :: rest => p.display :: watch_go rest

/-- fn watch in src/main.rs: print the current active profile once,
then print each delivered change notification. -/
def watch (active : PowerProfile) (changes : List PowerProfile) :
    List String :=
  active.display :: watch_go changes

theorem watch_go_eq_map (l : List PowerProfile) :
    watch_go l = l.map PowerProfile.display := by
  induction l with
  | nil => rfl
  | cons p rest ih => simp [watch_go, ih]

/-- C8: the Watch command prints the initial active profile exactly
once and then exactly one line per delivered notification in delivery
order; consuming further notifications strictly extends the previous
output, so the loop never ends on its own while notifications keep
arriving. -/
theorem watch_initial_then_each_change (active : PowerProfile)
    (changes : List PowerProfile) :
    watch active changes
        = active.display :: changes.map PowerProfile.display
    ∧ (watch active changes).length = changes.length + 1
    ∧ ∀ more : List PowerProfile, ∃ rest,
        watch active (changes ++ more) = watch active changes ++ rest
        ∧ rest = more.map PowerProfile.display := by
  refine ⟨by simp [watch, watch_go_eq_map], ?_, ?_⟩
  · simp [watch, watch_go_eq_map]
  · intro more
    exact ⟨more.map PowerProfile.display,
      by simp [watch, watch_go_eq_map], rfl⟩

/- The remaining print-only commands of src/main.rs. -/

/-- fn print_profile in src/main.rs. -/
def print_profile (active : PowerProfile) : List String :=
  [active.display]

/-- fn list_actions in src/main.rs: three lines per action. -/
def list_actions (actions : List Ppd.Action) : List String :=
  actions.flatMap (fun action =>
    ["Name: " ++ action.name,
     "Description: " ++ action.description,
     "Enabled: " ++ (if action.enabled then "true" else "false")])

/-- fn query_battery_aware in src/main.rs. -/
def query_battery_aware (battery_aware : Bool) : List String :=
  ["Dynamic changes from charger and battery events: "
    ++ (if battery_aware then "true" else "false")]

/-- The Commands enumeration from src/args.rs. -/
inductive Commands where
  | List
  | ListHolds
  | ListActions
  | Get
  | Set (profile : String)
  | ConfigureAction (action : String) (enable : Bool) (disable : Bool)
  | ConfigureBatteryAware (enable : Bool) (disable : Bool)
  | QueryBatteryAware
  | Launch (arguments : String) (profile : Option String)
      (reason : Option String) (appid : Option String)
  | Watch

/-- The state of the remote daemon as observed through the adapter:
one field per property the client reads, plus the delivered
ActiveProfile change notifications consumed by Watch. -/
structure Daemon where
  active_profile : PowerProfile
  profiles : List Profile
  performance_degraded : Option String
  battery_aware : Bool
  actions_info : List Ppd.Action
  active_profile_changes : List PowerProfile

/-- The top-level match over cli.command in fn main of src/main.rs: a
missing subcommand runs list; ListHolds, Launch and ConfigureAction
fail immediately with distinct Unimplemented errors. -/
def dispatch (d : Daemon) :
    Option Commands → Except PpdError Unit × List String × List WriteCall
  | some Commands.Get => (Except.ok (), print_profile d.active_profile, [])
  | some Commands.List =>
      (Except.ok (),
        list d.active_profile d.profiles d.performance_degraded, [])
  | some Commands.ListHolds =>
      (Except.error (PpdError.Unimplemented "ListHolds command"), [], [])
  | some (Commands.Set profile) =>
      let r := Ppd.set d.profiles profile
      (r.1, [], r.2)
  | some Commands.ListActions =>
      (Except.ok (), list_actions d.actions_info, [])
  | some (Commands.Launch _ _ _ _) =>
      (Except.error (PpdError.Unimplemented "Launch command"), [], [])
  | some Commands.QueryBatteryAware =>
      (Except.ok (), query_battery_aware d.battery_aware, [])
  | some (Commands.ConfigureAction _ _ _) =>
      (Except.error (PpdError.Unimplemented "ConfigureAction command"), [], [])
  | some (Commands.ConfigureBatteryAware enable disable) =>
      let r := configure_battery_aware enable disable
      (r.1, [], r.2)
  | some Commands.Watch =>
      (Except.ok (),
        watch d.active_profile d.active_profile_changes, [])
  | none =>
      (Except.ok (),
        list d.active_profile d.profiles d.performance_degraded, [])

/-- C9: ListHolds, Launch and ConfigureAction each fail with an
Unimplemented error naming the stubbed command, the three messages are
pairwise distinct, and none of the three prints output, issues a write,
or succeeds. -/
theorem stubbed_commands_unimplemented_distinct (d : Daemon)
    (action arguments : String) (enable disable : Bool)
    (profile reason appid : Option String) :
    dispatch d (some Commands.ListHolds)
        = (Except.error (PpdError.Unimplemented "ListHolds command"), [], [])
    ∧ dispatch d (some (Commands.Launch arguments profile reason appid))
        = (Except.error (PpdError.Unimplemented "Launch command"), [], [])
    ∧ dispatch d (some (Commands.ConfigureAction action enable disable))
        = (Except.error
            (PpdError.Unimplemented "ConfigureAction command"), [], [])
    ∧ ("ListHolds command" : String) ≠ "Launch command"
    ∧ ("ListHolds command" : String) ≠ "ConfigureAction command"
    ∧ ("Launch command" : String) ≠ "ConfigureAction command" :=
  ⟨rfl, rfl, rfl, by decide, by decide, by decide⟩

/- Concrete scenario checks from the spec, section 8. -/

example :
    list PowerProfile.Balanced
      [Profile.mk PowerProfile.PowerSaver "d" none none,
       Profile.mk PowerProfile.Balanced "d" none none,
       Profile.mk PowerProfile.Performance "d" none none] none
    = ["  performance:", "    Degraded:  no", "",
       "* balanced:", "", "  power-saver:"] := by decide

example :
    Ppd.set [Profile.mk PowerProfile.Balanced "d" none none] "turbo"
      = (Except.error (PpdError.InvalidProfile "turbo"), []) := rfl

example :
    configure_battery_aware true true
      = (Except.error
          (PpdError.InvalidConfig "can\x27t set both enable and disable"),
         []) := rfl

example :
    watch PowerProfile.Balanced [PowerProfile.Performance]
      = ["balanced", "performance"] := rfl
